import Mathlib

/-!
Verification of the Culinara generative-AI service layer
(`Culinara/Services/GeminiService.swift` and the SwiftData record types).

The Swift code is shallowly embedded: dynamic JSON values
(`JSONSerialization` output, Swift `[String: Any]`) become an inductive
`Json` type, the `as?` downcasts become partial accessors returning
`Option`, and the throwing functions return `Except`.  External
collaborators (Foundation JSON parsing, `URL(string:)` validity,
`URLSession`) are passed in as explicit function parameters.
-/

namespace Culinara

/-! ## JSON values

Models a value decoded by Foundation JSONSerialization.  A JSON number is
either integral (`Swift as? Int` succeeds, so does `as? Double`) or
non-integral (`as? Int` fails, `as? Double` succeeds); the pair
`numerator / denominator` abstracts the latter.  Booleans are modelled as
not castable to numbers. -/

inductive JNum : Type where
  | int (n : Int)
  | nonIntegral (numerator : Int) (denominator : Nat)
deriving DecidableEq, Repr

inductive Json : Type where
  | null
  | bool (b : Bool)
  | num (n : JNum)
  | str (s : String)
  | arr (elems : List Json)
  | obj (fields : List (String × Json))

/-- Swift dictionary subscript `dict["key"]` on a decoded JSON object
(keys are unique after JSONSerialization, so first match suffices). -/
def jGet (fields : List (String × Json)) (key : String) : Option Json :=
  match fields with
  | [] => none
  | (k, v) :: rest => if k = key then some v else jGet rest key

/-- Swift `value as? String`. -/
def Json.asString : Json → Option String
  | .str s => some s
  | _ => none

/-- Swift `value as? Int`: succeeds exactly on integral JSON numbers. -/
def Json.asInt : Json → Option Int
  | .num (.int n) => some n
  | _ => none

/-- Swift `value as? Double`: succeeds on any JSON number. -/
def Json.asNumber : Json → Option JNum
  | .num n => some n
  | _ => none

/-- Swift `value as? [String: Any]`. -/
def Json.asObject : Json → Option (List (String × Json))
  | .obj fields => some fields
  | _ => none

/-- Helper for `as? [[String: Any]]`: every element must be an object. -/
def allObjects : List Json → Option (List (List (String × Json)))
  | [] => some []
  | j :: rest =>
    match j.asObject, allObjects rest with
    | some o, some os => some (o :: os)
    | _, _ => none

/-- Swift `value as? [[String: Any]]`: an array whose elements are all
objects. -/
def Json.asObjectArray : Json → Option (List (List (String × Json)))
  | .arr elems => allObjects elems
  | _ => none

/-! ## Domain record types (from the SwiftData model file) -/

inductive Difficulty : Type where
  | easy | medium | hard
deriving DecidableEq, Repr

def Difficulty.rawValue : Difficulty → String
  | .easy => "Easy"
  | .medium => "Medium"
  | .hard => "Hard"

inductive MealType : Type where
  | breakfast | lunch | dinner | dessert | snack
deriving DecidableEq, Repr

def MealType.rawValue : MealType → String
  | .breakfast => "Breakfast"
  | .lunch => "Lunch"
  | .dinner => "Dinner"
  | .dessert => "Dessert"
  | .snack => "Snack"

def MealType.allCases : List MealType :=
  [.breakfast, .lunch, .dinner, .dessert, .snack]

inductive SourceType : Type where
  | original | aiGenerated | imported | ocr
deriving DecidableEq, Repr

structure Ingredient : Type where
  item : String
  quantity : Option JNum
  unit : Option String
  «section» : Option String
deriving DecidableEq, Repr

structure Instruction : Type where
  stepNumber : Int
  instruction : String
  timeMinutes : Option Int
  tip : Option String
deriving DecidableEq, Repr

structure Nutrition : Type where
  calories : Int
  proteinG : JNum
  carbsG : JNum
  fatG : JNum
deriving DecidableEq, Repr

structure Recipe : Type where
  title : String
  recipeDescription : Option String
  cookTime : Int
  prepTime : Int
  servings : Int
  difficulty : Difficulty
  cuisine : Option String
  mealType : Option MealType
  sourceType : SourceType
  ingredients : List Ingredient
  instructions : List Instruction
  nutrition : Option Nutrition
deriving DecidableEq, Repr

/-- Computed property `Recipe.totalTime`. -/
def Recipe.totalTime (r : Recipe) : Int := r.prepTime + r.cookTime

inductive SubstitutionCategory : Type where
  | vegan | kosher | allergy | preference | availability
deriving DecidableEq, Repr

def SubstitutionCategory.rawValue : SubstitutionCategory → String
  | .vegan => "Vegan"
  | .kosher => "Kosher"
  | .allergy => "Allergy"
  | .preference => "Preference"
  | .availability => "Availability"

/-- Swift failable initializer `SubstitutionCategory(rawValue:)`
(case-sensitive raw-value match). -/
def SubstitutionCategory.fromRaw (s : String) : Option SubstitutionCategory :=
  if s = "Vegan" then some .vegan
  else if s = "Kosher" then some .kosher
  else if s = "Allergy" then some .allergy
  else if s = "Preference" then some .preference
  else if s = "Availability" then some .availability
  else none

structure Substitution : Type where
  original : String
  alternative : String
  reason : String
  category : SubstitutionCategory
deriving DecidableEq, Repr

inductive ChatRole : Type where
  | user | assistant
deriving DecidableEq, Repr

structure ChatMessage : Type where
  role : ChatRole
  content : String
deriving DecidableEq, Repr

/-! ## Errors

`GeminiError` is the error enum of the service.  `CallError` adds the two
kinds of foreign errors that the Swift code lets propagate: the error
thrown by `JSONSerialization.jsonObject` on invalid JSON (rethrown by the
`try` inside a `guard let ... = try ... as?` statement, whose `else`
branch only handles a failed cast), and an error thrown by
`URLSession.shared.data`. -/

inductive GeminiError : Type where
  | missingAPIKey
  | invalidURL
  | invalidResponse
  | httpError (code : Int)
  | parsingError
deriving DecidableEq, Repr

inductive CallError : Type where
  | gemini (e : GeminiError)
  | serializationFailed
  | networkFailed
deriving DecidableEq, Repr

/-! ## Text extraction (`extractTextFromResponse`) -/

/-- The guard chain of `extractTextFromResponse`: first candidate, its
`content`, its `parts`, first part, `text` as a string. -/
def extractedText (json : List (String × Json)) : Option String := do
  let candidates ← (jGet json "candidates").bind Json.asObjectArray
  let first ← candidates.head?
  let content ← (jGet first "content").bind Json.asObject
  let parts ← (jGet content "parts").bind Json.asObjectArray
  let firstPart ← parts.head?
  (jGet firstPart "text").bind Json.asString

/-- `extractTextFromResponse`: on a failed guard it returns the literal
fallback string, it does not throw. -/
def extractTextFromResponse (json : List (String × Json)) : String :=
  (extractedText json).getD "Unable to generate response"

/-! ## Field mappers of `parseRecipeResponse` -/

/-- `parseMealType`: case-insensitive raw-value match over `allCases`. -/
def parseMealType : Option String → Option MealType
  | none => none
  | some s => MealType.allCases.find? fun m => m.rawValue.toLower = s.toLower

/-- `parseSubstitutionCategory`: `nil` or unrecognized raw value falls
back to `.preference`. -/
def parseSubstitutionCategory : Option String → SubstitutionCategory
  | none => .preference
  | some s => (SubstitutionCategory.fromRaw s).getD .preference

/-- One iteration of the ingredient loop of `parseRecipeResponse`. -/
def mapIngredient (ingData : List (String × Json)) : Ingredient :=
  { item := ((jGet ingData "item").bind Json.asString).getD ""
    quantity := (jGet ingData "quantity").bind Json.asNumber
    unit := (jGet ingData "unit").bind Json.asString
    «section» := (jGet ingData "section").bind Json.asString }

/-- The instruction loop of `parseRecipeResponse`: iterates
`instructionsData.enumerated()` with `stepNumber = index + 1`, ignoring
any `stepNumber` field of the payload.  `idx` is the running 0-based
index. -/
def mapInstructionsFrom (idx : Nat) :
    List (List (String × Json)) → List Instruction
  | [] => []
  | instData :: rest =>
    { stepNumber := (idx : Int) + 1
      instruction := ((jGet instData "instruction").bind Json.asString).getD ""
      timeMinutes := (jGet instData "timeMinutes").bind Json.asInt
      tip := (jGet instData "tip").bind Json.asString }
      :: mapInstructionsFrom (idx + 1) rest

/-- The nutrition block of `parseRecipeResponse`: numeric fields default
to 0. -/
def mapNutrition (nutritionData : List (String × Json)) : Nutrition :=
  { calories := ((jGet nutritionData "calories").bind Json.asInt).getD 0
    proteinG := ((jGet nutritionData "proteinG").bind Json.asNumber).getD (.int 0)
    carbsG := ((jGet nutritionData "carbsG").bind Json.asNumber).getD (.int 0)
    fatG := ((jGet nutritionData "fatG").bind Json.asNumber).getD (.int 0) }

/-- The recipe construction of `parseRecipeResponse` once `recipeData`
has been obtained: the `Recipe(...)` call plus the three mapping blocks.
`difficulty` is the hard-coded `.medium`; a missing or mis-shaped
`ingredients` / `instructions` / `nutrition` key leaves the lists empty
resp. the nutrition absent. -/
def recipeFromData (recipeData : List (String × Json)) : Recipe :=
  { title := ((jGet recipeData "title").bind Json.asString).getD "Untitled Recipe"
    recipeDescription := (jGet recipeData "description").bind Json.asString
    cookTime := ((jGet recipeData "cookTime").bind Json.asInt).getD 30
    prepTime := ((jGet recipeData "prepTime").bind Json.asInt).getD 15
    servings := ((jGet recipeData "servings").bind Json.asInt).getD 4
    difficulty := .medium
    cuisine := (jGet recipeData "cuisine").bind Json.asString
    mealType := parseMealType ((jGet recipeData "mealType").bind Json.asString)
    sourceType := .aiGenerated
    ingredients :=
      match (jGet recipeData "ingredients").bind Json.asObjectArray with
      | some ingredientsData => ingredientsData.map mapIngredient
      | none => []
    instructions :=
      match (jGet recipeData "instructions").bind Json.asObjectArray with
      | some instructionsData => mapInstructionsFrom 0 instructionsData
      | none => []
    nutrition :=
      match (jGet recipeData "nutrition").bind Json.asObject with
      | some nutritionData => some (mapNutrition nutritionData)
      | none => none }

/-! ## Response parsers

`parse` models `JSONSerialization.jsonObject(with:)` on the UTF-8 bytes
of the text (an external Foundation call): `none` means the serializer
throws, and because the `try` sits inside the `guard let`, that thrown
error propagates (`CallError.serializationFailed`); only a successful
parse of the wrong shape reaches `GeminiError.parsingError`. -/

/-- `parseRecipeResponse(_:ingredients:)`.  The `ingredients` request
parameter is accepted but never read by the Swift body. -/
def parseRecipeResponse (parse : String → Option Json)
    (json : List (String × Json)) (ingredients : List String) :
    Except CallError Recipe :=
  let text := extractTextFromResponse json
  match parse text with
  | none => .error .serializationFailed
  | some v =>
    match v.asObject with
    | none => .error (.gemini .parsingError)
    | some recipeData => .ok (recipeFromData recipeData)

/-- The element mapper of `parseSubstitutionsResponse`. -/
def mapSubstitution (original : String) (data : List (String × Json)) :
    Substitution :=
  { original := original
    alternative := ((jGet data "alternative").bind Json.asString).getD ""
    reason := ((jGet data "reason").bind Json.asString).getD ""
    category := parseSubstitutionCategory ((jGet data "category").bind Json.asString) }

/-- `parseSubstitutionsResponse(_:original:)`: the parsed text must be an
array of objects, each mapped to a `Substitution`. -/
def parseSubstitutionsResponse (parse : String → Option Json)
    (json : List (String × Json)) (original : String) :
    Except CallError (List Substitution) :=
  let text := extractTextFromResponse json
  match parse text with
  | none => .error .serializationFailed
  | some v =>
    match v.asObjectArray with
    | none => .error (.gemini .parsingError)
    | some substitutionsData => .ok (substitutionsData.map (mapSubstitution original))

/-! ## String building blocks used by the prompt builders -/

/-- Decimal digit character. -/
def digitChar : Nat → Char
  | 0 => '0' | 1 => '1' | 2 => '2' | 3 => '3' | 4 => '4'
  | 5 => '5' | 6 => '6' | 7 => '7' | 8 => '8' | 9 => '9'
  | _ => '*'

/-- Fuelled decimal rendering of a natural number (fuel `n + 1` always
suffices since `n / 10 < n` for `n ≥ 10`). -/
def natDigitsAux : Nat → Nat → List Char
  | 0, _ => []
  | fuel + 1, n =>
    if n < 10 then [digitChar n]
    else natDigitsAux fuel (n / 10) ++ [digitChar (n % 10)]

def natDigits (n : Nat) : List Char := natDigitsAux (n + 1) n

/-- Decimal rendering of an `Int`, as Swift string interpolation
`"\(x)"` renders an `Int`. -/
def intChars : Int → List Char
  | .ofNat n => natDigits n
  | .negSucc m => '-' :: natDigits (m + 1)

def intRepr (n : Int) : String := ⟨intChars n⟩

/-- Swift `Array.joined(separator:)` on an array of strings. -/
def joinedStrings (sep : String) : List String → String
  | [] => ""
  | [x] => x
  | x :: rest => x ++ sep ++ joinedStrings sep rest

/-- Swift rendering of a `Double` inside string interpolation.  Integral
doubles print with a trailing `.0`; the rendering of a non-integral
double is abstracted (its exact decimal expansion is irrelevant here). -/
def jnumRepr : JNum → String
  | .int n => intRepr n ++ ".0"
  | .nonIntegral a b => intRepr a ++ "/" ++ ⟨natDigits b⟩

def isSpaceChar (c : Char) : Bool :=
  c = ' ' || c = '\t' || c = '\n' || c = '\r'

/-- Swift `trimmingCharacters(in: .whitespaces)`. -/
def trimWhitespace (s : String) : String :=
  ⟨((s.data.dropWhile isSpaceChar).reverse.dropWhile isSpaceChar).reverse⟩

/-- Computed property `Ingredient.displayText`. -/
def Ingredient.displayText (i : Ingredient) : String :=
  trimWhitespace
    ((match i.quantity with | some q => jnumRepr q ++ " " | none => "")
      ++ (match i.unit with | some u => u ++ " " | none => "")
      ++ i.item)

/-- Insertion step for `sorted(by: { $0.stepNumber < $1.stepNumber })`. -/
def insertInstr (a : Instruction) : List Instruction → List Instruction
  | [] => [a]
  | b :: rest =>
    if a.stepNumber < b.stepNumber then a :: b :: rest
    else b :: insertInstr a rest

/-- Models `instructions.sorted(by: { $0.stepNumber < $1.stepNumber })`. -/
def sortInstructions : List Instruction → List Instruction
  | [] => []
  | a :: rest => insertInstr a (sortInstructions rest)

/-! ## Prompt builders -/

/-- The fixed tail of the recipe-generation prompt, from just before
` minutes` to the end (the JSON schema block). -/
def recipeSchemaText : String :=
  " minutes\n\nReturn ONLY valid JSON with this exact structure (no markdown, no explanation):\n\x7b\n  \"title\": \"Recipe Name\",\n  \"description\": \"Brief 1-2 sentence description\",\n  \"cookTime\": 30,\n  \"prepTime\": 15,\n  \"servings\": 4,\n  \"cuisine\": \"cuisine type or null\",\n  \"mealType\": \"Breakfast, Lunch, Dinner, Dessert, or Snack\",\n  \"ingredients\": [\n    \x7b\"item\": \"ingredient name\", \"quantity\": 1.0, \"unit\": \"cup\", \"section\": \"Main\"\x7d,\n    \x7b\"item\": \"ingredient name\", \"quantity\": null, \"unit\": null, \"section\": null\x7d\n  ],\n  \"instructions\": [\n    \x7b\"stepNumber\": 1, \"instruction\": \"detailed step\", \"timeMinutes\": 5, \"tip\": \"helpful tip or null\"\x7d\n  ],\n  \"nutrition\": \x7b\n    \"calories\": 400,\n    \"proteinG\": 25.0,\n    \"carbsG\": 30.0,\n    \"fatG\": 15.0\n  \x7d\n\x7d\n\nMake it creative and delicious!"

/-- `buildRecipeGenerationPrompt`: the multi-line interpolated template,
with the conditional `- Cuisine:` line present exactly when `cuisine` is
non-nil. -/
def buildRecipeGenerationPrompt (ingredients : List String)
    (cuisine : Option String) (difficulty : Difficulty)
    (targetCookTime : Int) : String :=
  "You are a professional chef. Generate a delicious recipe using these ingredients: "
    ++ joinedStrings ", " ingredients
    ++ ".\n\nRequirements:\n"
    ++ (match cuisine with
        | some c => "- Cuisine: " ++ c
        | none => "")
    ++ "\n- Difficulty: " ++ difficulty.rawValue
    ++ "\n- Target cooking time: around " ++ intRepr targetCookTime
    ++ recipeSchemaText

/-- `buildRecipeContext`. -/
def buildRecipeContext (recipe : Recipe) : String :=
  "Title: " ++ recipe.title ++ "\n"
    ++ recipe.recipeDescription.getD ""
    ++ "\n\nIngredients:\n"
    ++ joinedStrings "\n" (recipe.ingredients.map fun i => "- " ++ i.displayText)
    ++ "\n\nInstructions:\n"
    ++ joinedStrings "\n"
        ((sortInstructions recipe.instructions).map fun i =>
          intRepr i.stepNumber ++ ". " ++ i.instruction)

def chatRoleLabel : ChatRole → String
  | .user => "User"
  | .assistant => "Assistant"

/-- The chat prompt assembled inline by `chatWithRecipe`. -/
def buildChatPrompt (recipe : Recipe) (question : String)
    (history : List ChatMessage) : String :=
  "Recipe Context:\n" ++ buildRecipeContext recipe
    ++ "\n\nPrevious conversation:\n"
    ++ joinedStrings "\n"
        (history.map fun m => chatRoleLabel m.role ++ ": " ++ m.content)
    ++ "\n\nUser Question: " ++ question
    ++ "\n\nPlease provide a helpful, concise answer about this recipe. Be practical and friendly."

/-- `buildSubstitutionPrompt`. -/
def buildSubstitutionPrompt (ingredient : String) (constraints : List String) :
    String :=
  "Find 3-5 substitutions for: " ++ ingredient ++ "\n\n"
    ++ (if constraints = [] then ""
        else "Dietary constraints: " ++ joinedStrings ", " constraints)
    ++ "\n\nReturn ONLY valid JSON array (no markdown, no explanation):\n[\n  \x7b\n    \"alternative\": \"substitute name\",\n    \"reason\": \"why this works (1-2 sentences)\",\n    \"category\": \"Vegan, Kosher, Allergy, Preference, or Availability\"\n  \x7d\n]\n\nFocus on practical, accessible substitutes."

/-! ## Transport (`makeRequest`) and the three service operations

External collaborators are passed as parameters: `urlValid` models
`URL(string:)` succeeding, `fetch` models `URLSession.shared.data`
(returning either a thrown transport error or a reply), and `parse`
models `JSONSerialization.jsonObject` as above.  Each operation also
returns the list of URLs actually fetched, to make "performs no network
request" provable. -/

/-- What `URLSession.shared.data` yields: whether the `URLResponse`
downcasts to `HTTPURLResponse`, its status code, and the body data
(kept as the string the serializer will see). -/
structure HTTPReply : Type where
  isHTTP : Bool
  statusCode : Int
  body : String

def baseURL : String := "https://generativelanguage.googleapis.com/v1beta"

def geminiModel : String := "gemini-2.0-flash-exp"

def requestURLString (apiKey model : String) : String :=
  baseURL ++ "/models/" ++ model ++ ":generateContent?key=" ++ apiKey

/-- `makeRequest(prompt:model:)`.  Returns the result together with the
list of URLs fetched (empty when the guard fails before the network
call). -/
def makeRequest (urlValid : String → Bool)
    (fetch : String → String → Except Unit HTTPReply)
    (parse : String → Option Json)
    (apiKey prompt model : String) :
    Except CallError (List (String × Json)) × List String :=
  let urlString := requestURLString apiKey model
  if urlValid urlString then
    match fetch urlString prompt with
    | .error _ => (.error .networkFailed, [urlString])
    | .ok reply =>
      if reply.isHTTP then
        if reply.statusCode = 200 then
          match parse reply.body with
          | none => (.error .serializationFailed, [urlString])
          | some v =>
            match v.asObject with
            | none => (.error (.gemini .invalidResponse), [urlString])
            | some json => (.ok json, [urlString])
        else (.error (.gemini (.httpError reply.statusCode)), [urlString])
      else (.error (.gemini .invalidResponse), [urlString])
  else (.error (.gemini .invalidURL), [])

/-- `generateRecipe`: guard on the API key, build the prompt, one
request, parse the reply. -/
def generateRecipe (urlValid : String → Bool)
    (fetch : String → String → Except Unit HTTPReply)
    (parse : String → Option Json)
    (apiKey : String) (ingredients : List String) (cuisine : Option String)
    (difficulty : Difficulty) (targetCookTime : Int) :
    Except CallError Recipe × List String :=
  if apiKey = "" then (.error (.gemini .missingAPIKey), [])
  else
    let prompt := buildRecipeGenerationPrompt ingredients cuisine difficulty targetCookTime
    match makeRequest urlValid fetch parse apiKey prompt geminiModel with
    | (.error e, log) => (.error e, log)
    | (.ok response, log) => (parseRecipeResponse parse response ingredients, log)

/-- `chatWithRecipe`: guard on the API key, one request, and the
extracted text returned verbatim. -/
def chatWithRecipe (urlValid : String → Bool)
    (fetch : String → String → Except Unit HTTPReply)
    (parse : String → Option Json)
    (apiKey : String) (recipe : Recipe) (question : String)
    (history : List ChatMessage) :
    Except CallError String × List String :=
  if apiKey = "" then (.error (.gemini .missingAPIKey), [])
  else
    let prompt := buildChatPrompt recipe question history
    match makeRequest urlValid fetch parse apiKey prompt geminiModel with
    | (.error e, log) => (.error e, log)
    | (.ok response, log) => (.ok (extractTextFromResponse response), log)

/-- `findSubstitutions`: guard on the API key, one request, parse the
substitution array. -/
def findSubstitutions (urlValid : String → Bool)
    (fetch : String → String → Except Unit HTTPReply)
    (parse : String → Option Json)
    (apiKey : String) (ingredient : String) (constraints : List String) :
    Except CallError (List Substitution) × List String :=
  if apiKey = "" then (.error (.gemini .missingAPIKey), [])
  else
    let prompt := buildSubstitutionPrompt ingredient constraints
    match makeRequest urlValid fetch parse apiKey prompt geminiModel with
    | (.error e, log) => (.error e, log)
    | (.ok response, log) => (parseSubstitutionsResponse parse response ingredient, log)

/-! ## Substring occurrence

Executable substring test used to state the prompt-content claims
(Swift `String.contains`). -/

/-- `isLeadOf pat s` : `pat` is a prefix of `s`. -/
def isLeadOf : List Char → List Char → Bool
  | [], _ => true
  | _ :: _, [] => false
  | p :: ps, c :: cs => p == c && isLeadOf ps cs

/-- `containsSub pat s` : `pat` occurs contiguously inside `s`. -/
def containsSub (pat : List Char) : List Char → Bool
  | [] => isLeadOf pat []
  | c :: rest => isLeadOf pat (c :: rest) || containsSub pat rest

/-- Substring test on strings. -/
def containsStr (pat s : String) : Bool := containsSub pat.data s.data

/-! ## Fixtures: concrete oracle instances used by witnesses and
counterexamples -/

/-- A success envelope whose generated text is the given string. -/
def mkEnvelope (text : String) : List (String × Json) :=
  [("candidates",
    .arr [.obj [("content",
      .obj [("parts", .arr [.obj [("text", .str text)]])])]])]

/-- JSON text of the empty object. -/
def emptyObjectText : String := "\x7b\x7d"

/-- JSON text of an object carrying `servings = 0`. -/
def servingsZeroText : String := "\x7b\"servings\": 0\x7d"

/-- JSON text of an object whose `instructions` array holds one step
numbered 5 by the model. -/
def instructionsText : String :=
  "\x7b\"instructions\": [\x7b\"stepNumber\": 5, \"instruction\": \"Cook chicken\"\x7d]\x7d"

def instructionsJson : Json :=
  .obj [("instructions",
    .arr [.obj [("stepNumber", .num (.int 5)), ("instruction", .str "Cook chicken")]])]

/-- JSON text of an object whose `ingredients` array holds one entry
without a `quantity` field. -/
def ingredientsText : String :=
  "\x7b\"ingredients\": [\x7b\"item\": \"rice\"\x7d]\x7d"

def ingredientsJson : Json :=
  .obj [("ingredients", .arr [.obj [("item", .str "rice")]])]

/-- JSON text of a transport envelope whose generated text is `"{}"`. -/
def envelopeBodyText : String :=
  "\x7b\"candidates\": [\x7b\"content\": \x7b\"parts\": [\x7b\"text\": \"\x7b\x7d\"\x7d]\x7d\x7d]\x7d"

/-- A serializer stand-in for witness runs: defined on a handful of
concrete JSON documents, a serializer failure on every other string (in
particular on the fallback string `"Unable to generate response"` and on
`"this is not JSON"`, neither of which is valid JSON). -/
def parseFix : String → Option Json := fun s =>
  if s = emptyObjectText then some (.obj [])
  else if s = servingsZeroText then some (.obj [("servings", .num (.int 0))])
  else if s = "[]" then some (.arr [])
  else if s = instructionsText then some instructionsJson
  else if s = ingredientsText then some ingredientsJson
  else if s = envelopeBodyText then some (.obj (mkEnvelope emptyObjectText))
  else none

/-- URL stand-in accepting every URL string. -/
def urlValidFix : String → Bool := fun _ => true

/-- Transport stand-in: every fetch succeeds with HTTP 200 and the fixed
envelope body. -/
def fetchFix : String → String → Except Unit HTTPReply :=
  fun _ _ => .ok { isHTTP := true, statusCode := 200, body := envelopeBodyText }

/-! ## Lemmas about substring occurrence -/

theorem isLeadOf_nil (s : List Char) : isLeadOf [] s = true := by
  cases s <;> rfl

theorem isLeadOf_refl (u : List Char) : isLeadOf u u = true := by
  induction u with
  | nil => rfl
  | cons c cs ih => simp [isLeadOf, ih]

theorem isLeadOf_append_of {pat u : List Char} (v : List Char)
    (h : isLeadOf pat u = true) : isLeadOf pat (u ++ v) = true := by
  induction pat generalizing u with
  | nil => exact isLeadOf_nil _
  | cons p ps ih =>
    cases u with
    | nil => simp [isLeadOf] at h
    | cons c cs =>
      simp [isLeadOf] at h ⊢
      exact ⟨h.1, ih h.2⟩

theorem containsSub_nil_pat (s : List Char) : containsSub [] s = true := by
  cases s with
  | nil => rfl
  | cons c rest => simp [containsSub, isLeadOf]

theorem containsSub_of_isLeadOf {pat s : List Char}
    (h : isLeadOf pat s = true) : containsSub pat s = true := by
  cases s with
  | nil => simpa [containsSub] using h
  | cons c rest => simp [containsSub, h]

theorem containsSub_append_right {pat b : List Char} (a : List Char)
    (h : containsSub pat b = true) : containsSub pat (a ++ b) = true := by
  induction a with
  | nil => simpa using h
  | cons c cs ih => simp [containsSub, ih]

theorem containsSub_append_left {pat a : List Char} (b : List Char)
    (h : containsSub pat a = true) : containsSub pat (a ++ b) = true := by
  induction a with
  | nil =>
    cases pat with
    | nil => exact containsSub_nil_pat b
    | cons p ps => simp [containsSub, isLeadOf] at h
  | cons c cs ih =>
    simp only [containsSub, Bool.or_eq_true] at h
    rcases h with h1 | h2
    · exact containsSub_of_isLeadOf (isLeadOf_append_of b h1)
    · simpa [containsSub] using Or.inr (ih h2)

/-- The list-level shape of `joinedStrings`. -/
def joinedChars (sep : List Char) : List (List Char) → List Char
  | [] => []
  | [x] => x
  | x :: rest => x ++ sep ++ joinedChars sep rest

theorem data_joinedStrings (sep : String) (l : List String) :
    (joinedStrings sep l).data = joinedChars sep.data (l.map String.data) := by
  induction l with
  | nil => rfl
  | cons x rest ih =>
    cases rest with
    | nil => rfl
    | cons y rest2 =>
      simp only [joinedStrings, joinedChars, List.map, String.data_append, ih]

theorem containsSub_joinedChars_of_mem {x : List Char}
    {l : List (List Char)} (sep : List Char) (h : x ∈ l) :
    containsSub x (joinedChars sep l) = true := by
  induction l with
  | nil => cases h
  | cons y rest ih =>
    cases rest with
    | nil =>
      rw [List.mem_singleton] at h
      subst h
      exact containsSub_of_isLeadOf (isLeadOf_refl x)
    | cons z rest2 =>
      rcases List.mem_cons.mp h with rfl | h2
      · exact containsSub_append_left _
          (containsSub_append_left _ (containsSub_of_isLeadOf (isLeadOf_refl x)))
      · exact containsSub_append_right _ (ih h2)

theorem head_beq_false {p0 : Char} {pr : List Char} {c : Char}
    (h : c ∉ p0 :: pr) : (p0 == c) = false := by
  rw [beq_eq_false_iff_ne]
  intro he
  exact h (List.mem_cons.mpr (Or.inl he.symm))

theorem isLeadOf_stops {pat w : List Char} {c : Char} (hc : c ∉ pat) :
    ∀ {u : List Char}, isLeadOf pat (u ++ c :: w) = true →
      isLeadOf pat u = true := by
  induction pat with
  | nil => exact fun {u} _ => isLeadOf_nil u
  | cons p ps ih =>
    intro u h
    cases u with
    | nil =>
      simp [isLeadOf] at h
      exact absurd (List.mem_cons.mpr (Or.inl h.1.symm)) hc
    | cons a u2 =>
      simp [isLeadOf] at h ⊢
      exact ⟨h.1, ih (fun hm => hc (List.mem_cons_of_mem p hm)) h.2⟩

theorem containsSub_boundary {pat b : List Char} {c : Char} (hc : c ∉ pat)
    (hb : containsSub pat b = false) :
    ∀ {a : List Char}, containsSub pat a = false →
      containsSub pat (a ++ c :: b) = false := by
  intro a
  induction a with
  | nil =>
    intro _
    cases pat with
    | nil => rw [containsSub_nil_pat] at hb; cases hb
    | cons p ps =>
      have hpc : (p == c) = false := head_beq_false hc
      simp [containsSub, isLeadOf, hpc, hb]
  | cons x a2 ih =>
    intro ha
    simp only [containsSub, Bool.or_eq_false_iff] at ha
    simp only [List.cons_append, containsSub, Bool.or_eq_false_iff]
    refine ⟨?_, ih ha.2⟩
    by_contra h
    rw [Bool.not_eq_false] at h
    have := isLeadOf_stops hc (u := x :: a2) h
    rw [this] at ha
    cases ha.1

theorem containsSub_skip {p0 : Char} {pr rest : List Char}
    {s : List Char} (h : ∀ c ∈ s, c ≠ p0) :
    containsSub (p0 :: pr) (s ++ rest) = containsSub (p0 :: pr) rest := by
  induction s with
  | nil => rfl
  | cons c s2 ih =>
    have hc : (p0 == c) = false :=
      beq_eq_false_iff_ne.mpr fun he => (h c (List.mem_cons_self c s2)) he.symm
    simp [containsSub, isLeadOf, hc,
      ih fun d hd => h d (List.mem_cons_of_mem c hd)]

theorem containsSub_joinedChars_none {p0 : Char} {pr : List Char}
    {c : Char} {b : List Char}
    (hcomma : ',' ∉ p0 :: pr) (hspace : ' ' ∉ p0 :: pr) (hc : c ∉ p0 :: pr)
    (hb : containsSub (p0 :: pr) b = false) :
    ∀ {l : List (List Char)},
      (∀ x ∈ l, containsSub (p0 :: pr) x = false) →
      containsSub (p0 :: pr) (joinedChars [',', ' '] l ++ c :: b) = false := by
  intro l
  induction l with
  | nil =>
    intro _
    exact containsSub_boundary hc hb (a := []) rfl
  | cons x rest ih =>
    intro hl
    cases rest with
    | nil =>
      exact containsSub_boundary hc hb (hl x (List.mem_cons_self x []))
    | cons y rest2 =>
      have hrest := ih fun z hz => hl z (List.mem_cons_of_mem x hz)
      have hsp :
          containsSub (p0 :: pr)
            (' ' :: (joinedChars [',', ' '] (y :: rest2) ++ c :: b)) = false := by
        have hb2 : (p0 == ' ') = false := head_beq_false hspace
        simp [containsSub, isLeadOf, hb2, hrest]
      have hx := containsSub_boundary hcomma hsp (hl x (List.mem_cons_self x _))
      simpa [joinedChars, List.append_assoc] using hx

/-! ## Decimal digits contain no letter -/

theorem digitChar_ne_C (n : Nat) : digitChar n ≠ 'C' := by
  rcases n with _|_|_|_|_|_|_|_|_|_|n <;> simp [digitChar]

theorem natDigitsAux_ne_C :
    ∀ fuel n, ∀ c ∈ natDigitsAux fuel n, c ≠ 'C' := by
  intro fuel
  induction fuel with
  | zero => intro n c hc; simp [natDigitsAux] at hc
  | succ f ih =>
    intro n c hc
    rw [natDigitsAux] at hc
    by_cases h : n < 10
    · simp [h] at hc
      exact hc ▸ digitChar_ne_C n
    · simp [h] at hc
      rcases hc with hc | hc
      · exact ih _ c hc
      · exact hc ▸ digitChar_ne_C _

theorem intChars_ne_C (t : Int) : ∀ c ∈ intChars t, c ≠ 'C' := by
  cases t with
  | ofNat n => exact fun c hc => natDigitsAux_ne_C _ _ c hc
  | negSucc m =>
    intro c hc
    rcases List.mem_cons.mp hc with rfl | hc2
    · decide
    · exact natDigitsAux_ne_C _ _ c hc2

/-! ## Helper lemmas about the parsers -/

theorem parseRecipeResponse_ok {parse : String → Option Json}
    {env : List (String × Json)} {ingredients : List String}
    {v : Json} {fields : List (String × Json)}
    (h1 : parse (extractTextFromResponse env) = some v)
    (h2 : v.asObject = some fields) :
    parseRecipeResponse parse env ingredients = .ok (recipeFromData fields) := by
  simp [parseRecipeResponse, h1, h2]

theorem parseRecipeResponse_cases {parse : String → Option Json}
    {env : List (String × Json)} {ingredients : List String} {r : Recipe}
    (h : parseRecipeResponse parse env ingredients = .ok r) :
    ∃ v fields, parse (extractTextFromResponse env) = some v ∧
      v.asObject = some fields ∧ r = recipeFromData fields := by
  cases hp : parse (extractTextFromResponse env) with
  | none => simp [parseRecipeResponse, hp] at h
  | some v =>
    cases ho : v.asObject with
    | none => simp [parseRecipeResponse, hp, ho] at h
    | some fields =>
      simp [parseRecipeResponse, hp, ho] at h
      exact ⟨v, fields, rfl, ho, h.symm⟩

theorem length_mapInstructionsFrom (idx : Nat) :
    ∀ l, (mapInstructionsFrom idx l).length = l.length := by
  intro l
  induction l generalizing idx with
  | nil => rfl
  | cons d rest ih => simp [mapInstructionsFrom, ih]

theorem stepNumber_mapInstructionsFrom :
    ∀ (l : List (List (String × Json))) (idx i : Nat)
      (h : i < (mapInstructionsFrom idx l).length),
      ((mapInstructionsFrom idx l)[i]).stepNumber = (idx : Int) + i + 1 := by
  intro l
  induction l with
  | nil => intro idx i h; simp [mapInstructionsFrom] at h
  | cons d rest ih =>
    intro idx i h
    cases i with
    | zero => simp [mapInstructionsFrom]
    | succ j =>
      have hj : j < (mapInstructionsFrom (idx + 1) rest).length := by
        simpa [mapInstructionsFrom] using h
      have := ih (idx + 1) j hj
      simp only [mapInstructionsFrom, List.getElem_cons_succ, this]
      push_cast
      ring

theorem makeRequest_ne_missingAPIKey (uv : String → Bool)
    (f : String → String → Except Unit HTTPReply) (p : String → Option Json)
    (apiKey prompt model : String) :
    (makeRequest uv f p apiKey prompt model).1
      ≠ .error (.gemini .missingAPIKey) := by
  intro h
  simp only [makeRequest] at h
  repeat' split at h
  all_goals simp at h

theorem parseRecipeResponse_ne_missingAPIKey (p : String → Option Json)
    (env : List (String × Json)) (ingredients : List String) :
    parseRecipeResponse p env ingredients ≠ .error (.gemini .missingAPIKey) := by
  intro h
  simp only [parseRecipeResponse] at h
  repeat' split at h
  all_goals simp at h

theorem parseSubstitutionsResponse_ne_missingAPIKey (p : String → Option Json)
    (env : List (String × Json)) (original : String) :
    parseSubstitutionsResponse p env original
      ≠ .error (.gemini .missingAPIKey) := by
  intro h
  simp only [parseSubstitutionsResponse] at h
  repeat' split at h
  all_goals simp at h

/-! ## Claim C1 -/

/-- C1: for every generation reply whose extracted text parses as a JSON
object — that is, whenever `generateRecipe` returns a Recipe at all —
the produced Recipe has difficulty `medium`, regardless of the
difficulty passed in the request and of any difficulty field of the
payload. -/
theorem c1_difficulty_always_medium (uv : String → Bool)
    (f : String → String → Except Unit HTTPReply) (p : String → Option Json)
    (apiKey : String) (ingredients : List String) (cuisine : Option String)
    (difficulty : Difficulty) (targetCookTime : Int) (r : Recipe)
    (log : List String)
    (h : generateRecipe uv f p apiKey ingredients cuisine difficulty targetCookTime
          = (.ok r, log)) :
    r.difficulty = .medium := by
  simp only [generateRecipe] at h
  split at h
  · simp at h
  · split at h
    · simp at h
    · rename_i response log2 heq
      rw [Prod.mk.injEq] at h
      have hpr : parseRecipeResponse p response ingredients = .ok r := h.1
      rcases parseRecipeResponse_cases hpr with ⟨v, fields, _, _, rfl⟩
      rfl

/-- C1 witness: a concrete successful run through the stand-in oracles
produces the default recipe, whose difficulty is `medium` although the
request asked for `hard`. -/
theorem c1_witness : (recipeFromData []).difficulty = .medium :=
  c1_difficulty_always_medium urlValidFix fetchFix parseFix "key" ["rice"]
    none .hard 45 (recipeFromData []) [requestURLString "key" geminiModel]
    (by rfl)

/-! ## Claim C2 -/

/-- C2: when the extracted text parses as a JSON object whose
`instructions` key is an array of N objects, the produced Recipe has
exactly N instructions whose `stepNumber`s are 1..N in array order,
regardless of any `stepNumber` fields of the payload. -/
theorem c2_instructions_renumbered (parse : String → Option Json)
    (env : List (String × Json)) (ingredients : List String) (v : Json)
    (fields : List (String × Json)) (instrData : List (List (String × Json)))
    (h1 : parse (extractTextFromResponse env) = some v)
    (h2 : v.asObject = some fields)
    (h3 : (jGet fields "instructions").bind Json.asObjectArray = some instrData) :
    ∃ r, parseRecipeResponse parse env ingredients = .ok r ∧
      r.instructions.length = instrData.length ∧
      ∀ i (hi : i < r.instructions.length),
        (r.instructions[i]).stepNumber = (i : Int) + 1 := by
  refine ⟨recipeFromData fields, parseRecipeResponse_ok h1 h2, ?_, ?_⟩
  · simp [recipeFromData, h3, length_mapInstructionsFrom]
  · intro i hi
    have hinstr : (recipeFromData fields).instructions
        = mapInstructionsFrom 0 instrData := by
      simp [recipeFromData, h3]
    rw [hinstr] at hi
    simp only [hinstr]
    simpa using stepNumber_mapInstructionsFrom instrData 0 i hi

/-- C2 witness: a payload whose single instruction carries
`stepNumber = 5` still comes out renumbered with `stepNumber = 1`. -/
theorem c2_witness :
    ∃ r, parseRecipeResponse parseFix (mkEnvelope instructionsText) [] = .ok r ∧
      r.instructions.length = 1 ∧
      ∀ i (hi : i < r.instructions.length),
        (r.instructions[i]).stepNumber = (i : Int) + 1 :=
  c2_instructions_renumbered parseFix (mkEnvelope instructionsText) []
    instructionsJson
    [("instructions",
      .arr [.obj [("stepNumber", .num (.int 5)), ("instruction", .str "Cook chicken")]])]
    [[("stepNumber", .num (.int 5)), ("instruction", .str "Cook chicken")]]
    (by rfl) (by rfl) (by rfl)

/-! ## Claim C3 -/

/-- C3 counterexample: the code has no distinct `EmptyGeneration`
failure.  On an envelope with no generated text the extraction
substitutes the fallback string, the serializer rejects it, and the call
fails with exactly the same error as a malformed (non-JSON) payload
reply — for recipe generation and for substitutions alike. -/
theorem c3_counterexample :
    extractedText ([] : List (String × Json)) = none ∧
    parseRecipeResponse parseFix [] []
      = parseRecipeResponse parseFix (mkEnvelope "this is not JSON") [] ∧
    parseRecipeResponse parseFix [] [] = .error .serializationFailed ∧
    parseSubstitutionsResponse parseFix [] "butter"
      = .error .serializationFailed :=
  ⟨rfl, rfl, rfl, rfl⟩

/-- C3 (amended): for every envelope in which the generated text is
absent, extraction yields the fallback string
`"Unable to generate response"`; that string is not valid JSON, so both
the recipe parser and the substitution parser fail with the propagated
serializer error — the same failure as for a malformed payload, not a
distinct `EmptyGeneration` error (no such error exists in the code). -/
theorem c3_absent_text_amended (parse : String → Option Json)
    (env : List (String × Json)) (ingredients : List String)
    (original : String)
    (habsent : extractedText env = none)
    (hfallback : parse "Unable to generate response" = none) :
    parseRecipeResponse parse env ingredients = .error .serializationFailed ∧
    parseSubstitutionsResponse parse env original
      = .error .serializationFailed := by
  have htext : extractTextFromResponse env = "Unable to generate response" := by
    simp [extractTextFromResponse, habsent]
  constructor
  · simp [parseRecipeResponse, htext, hfallback]
  · simp [parseSubstitutionsResponse, htext, hfallback]

/-- C3 witness: the amended theorem applied to the empty envelope and
the stand-in serializer. -/
theorem c3_witness :
    parseRecipeResponse parseFix [] ["rice"] = .error .serializationFailed ∧
    parseSubstitutionsResponse parseFix [] "butter"
      = .error .serializationFailed :=
  c3_absent_text_amended parseFix [] ["rice"] "butter" rfl rfl

/-! ## Claim C4 -/

/-- C4 counterexample: a substitution reply whose text is a malformed
string (not valid JSON) fails with the propagated serializer error, not
with `GeminiError.parsingError` (the `MalformedPayload` of the spec):
the `try` inside the guard rethrows the serializer failure before the
cast-failure branch can run. -/
theorem c4_counterexample :
    parseSubstitutionsResponse parseFix (mkEnvelope "this is not JSON") "butter"
      = .error .serializationFailed ∧
    (Except.error CallError.serializationFailed :
        Except CallError (List Substitution))
      ≠ .error (.gemini .parsingError) :=
  ⟨rfl, by simp⟩

/-- C4 (amended): a substitution reply fails with no partial results —
with `parsingError` (`MalformedPayload`) when the text is valid JSON
that is not an array of objects, and with the serializer's own thrown
error when the text is not valid JSON at all; when the text parses as a
JSON array of objects the call succeeds with exactly one Substitution
per element in array order, so the empty array yields zero Substitutions
and no error. -/
theorem c4_substitutions_amended (parse : String → Option Json)
    (env : List (String × Json)) (original : String) :
    (parse (extractTextFromResponse env) = none →
      parseSubstitutionsResponse parse env original
        = .error .serializationFailed) ∧
    (∀ v, parse (extractTextFromResponse env) = some v →
      v.asObjectArray = none →
      parseSubstitutionsResponse parse env original
        = .error (.gemini .parsingError)) ∧
    (∀ v arr, parse (extractTextFromResponse env) = some v →
      v.asObjectArray = some arr →
      ∃ subs, parseSubstitutionsResponse parse env original = .ok subs ∧
        subs.length = arr.length ∧
        (∀ i (hi : i < arr.length) (hs : i < subs.length),
          subs[i] = mapSubstitution original (arr[i])) ∧
        (arr = [] → subs = [])) := by
  refine ⟨?_, ?_, ?_⟩
  · intro hp
    simp [parseSubstitutionsResponse, hp]
  · intro v hp ha
    simp [parseSubstitutionsResponse, hp, ha]
  · intro v arr hp ha
    refine ⟨arr.map (mapSubstitution original), ?_, by simp, ?_, ?_⟩
    · simp [parseSubstitutionsResponse, hp, ha]
    · intro i hi hs
      simp
    · intro h
      simp [h]

/-- C4 witness: the amended theorem applied to the empty-array reply
`[]`: zero Substitutions, no error. -/
theorem c4_witness :
    ∃ subs, parseSubstitutionsResponse parseFix (mkEnvelope "[]") "butter"
        = .ok subs ∧
      subs.length = ([] : List (List (String × Json))).length ∧
      (∀ i (hi : i < ([] : List (List (String × Json))).length)
        (hs : i < subs.length),
        subs[i] = mapSubstitution "butter" (([] : List (List (String × Json)))[i])) ∧
      (([] : List (List (String × Json))) = [] → subs = []) :=
  (c4_substitutions_amended parseFix (mkEnvelope "[]") "butter").2.2
    (Json.arr []) [] rfl rfl

/-! ## Claim C5 -/

/-- C5: each of the three operations fails with
`GeminiError.missingAPIKey` and issues no network request when the
configured API key is the empty string; with a non-empty key that error
is never produced, whatever the transport and serializer do. -/
theorem c5_missing_api_key (uv : String → Bool)
    (f : String → String → Except Unit HTTPReply) (p : String → Option Json)
    (apiKey : String) (ingredients : List String) (cuisine : Option String)
    (difficulty : Difficulty) (targetCookTime : Int) (recipe : Recipe)
    (question : String) (history : List ChatMessage) (ingredient : String)
    (constraints : List String) :
    (apiKey = "" →
      generateRecipe uv f p apiKey ingredients cuisine difficulty targetCookTime
          = (.error (.gemini .missingAPIKey), []) ∧
      chatWithRecipe uv f p apiKey recipe question history
          = (.error (.gemini .missingAPIKey), []) ∧
      findSubstitutions uv f p apiKey ingredient constraints
          = (.error (.gemini .missingAPIKey), [])) ∧
    (apiKey ≠ "" →
      (generateRecipe uv f p apiKey ingredients cuisine difficulty targetCookTime).1
          ≠ .error (.gemini .missingAPIKey) ∧
      (chatWithRecipe uv f p apiKey recipe question history).1
          ≠ .error (.gemini .missingAPIKey) ∧
      (findSubstitutions uv f p apiKey ingredient constraints).1
          ≠ .error (.gemini .missingAPIKey)) := by
  constructor
  · intro hk
    refine ⟨?_, ?_, ?_⟩ <;> simp [generateRecipe, chatWithRecipe, findSubstitutions, hk]
  · intro hk
    refine ⟨?_, ?_, ?_⟩
    · simp only [generateRecipe, if_neg hk]
      split
      · rename_i heq
        intro hcontra
        simp only [Prod.fst, Except.error.injEq] at hcontra
        have := makeRequest_ne_missingAPIKey uv f p apiKey
          (buildRecipeGenerationPrompt ingredients cuisine difficulty targetCookTime)
          geminiModel
        rw [heq] at this
        simp only [Prod.fst, ne_eq, Except.error.injEq] at this
        exact this hcontra
      · exact parseRecipeResponse_ne_missingAPIKey p _ ingredients
    · simp only [chatWithRecipe, if_neg hk]
      split
      · rename_i heq
        intro hcontra
        simp only [Prod.fst, Except.error.injEq] at hcontra
        have := makeRequest_ne_missingAPIKey uv f p apiKey
          (buildChatPrompt recipe question history) geminiModel
        rw [heq] at this
        simp only [Prod.fst, ne_eq, Except.error.injEq] at this
        exact this hcontra
      · simp
    · simp only [findSubstitutions, if_neg hk]
      split
      · rename_i heq
        intro hcontra
        simp only [Prod.fst, Except.error.injEq] at hcontra
        have := makeRequest_ne_missingAPIKey uv f p apiKey
          (buildSubstitutionPrompt ingredient constraints) geminiModel
        rw [heq] at this
        simp only [Prod.fst, ne_eq, Except.error.injEq] at this
        exact this hcontra
      · exact parseSubstitutionsResponse_ne_missingAPIKey p _ ingredient

/-- C5 witness: with the empty key, `generateRecipe` fails with
`missingAPIKey` and fetches nothing; with the key `"key"` a full
stand-in run does not produce that error. -/
theorem c5_witness :
    generateRecipe urlValidFix fetchFix parseFix "" ["rice"] none .hard 45
        = (.error (.gemini .missingAPIKey), []) ∧
    (generateRecipe urlValidFix fetchFix parseFix "key" ["rice"] none .hard 45).1
        ≠ .error (.gemini .missingAPIKey) := by
  constructor
  · exact ((c5_missing_api_key urlValidFix fetchFix parseFix "" ["rice"] none
      .hard 45 (recipeFromData []) "q" [] "butter" []).1 rfl).1
  · exact ((c5_missing_api_key urlValidFix fetchFix parseFix "key" ["rice"] none
      .hard 45 (recipeFromData []) "q" [] "butter" []).2 (by decide)).1

/-! ## Claim C6 -/

/-- C6: for every payload that parses as a JSON object, the produced
Recipe has the payload's title string or `"Untitled Recipe"` when the
title is absent or not a string, the payload's integer `cookTime` or 30,
the payload's integer `prepTime` or 15, and the payload's integer
`servings` or 4. -/
theorem c6_scalar_defaults (parse : String → Option Json)
    (env : List (String × Json)) (ingredients : List String) (v : Json)
    (fields : List (String × Json))
    (h1 : parse (extractTextFromResponse env) = some v)
    (h2 : v.asObject = some fields) :
    ∃ r, parseRecipeResponse parse env ingredients = .ok r ∧
      (∀ t, (jGet fields "title").bind Json.asString = some t → r.title = t) ∧
      ((jGet fields "title").bind Json.asString = none →
        r.title = "Untitled Recipe") ∧
      (∀ n, (jGet fields "cookTime").bind Json.asInt = some n → r.cookTime = n) ∧
      ((jGet fields "cookTime").bind Json.asInt = none → r.cookTime = 30) ∧
      (∀ n, (jGet fields "prepTime").bind Json.asInt = some n → r.prepTime = n) ∧
      ((jGet fields "prepTime").bind Json.asInt = none → r.prepTime = 15) ∧
      (∀ n, (jGet fields "servings").bind Json.asInt = some n → r.servings = n) ∧
      ((jGet fields "servings").bind Json.asInt = none → r.servings = 4) := by
  refine ⟨recipeFromData fields, parseRecipeResponse_ok h1 h2,
    ?_, ?_, ?_, ?_, ?_, ?_, ?_, ?_⟩ <;>
  · first
    | (intro t h; simp [recipeFromData, h])
    | (intro h; simp [recipeFromData, h])

/-- C6 witness: the empty payload object produces the documented
defaults. -/
theorem c6_witness :
    ∃ r, parseRecipeResponse parseFix (mkEnvelope emptyObjectText) [] = .ok r ∧
      (∀ t, (jGet ([] : List (String × Json)) "title").bind Json.asString = some t →
        r.title = t) ∧
      ((jGet ([] : List (String × Json)) "title").bind Json.asString = none →
        r.title = "Untitled Recipe") ∧
      (∀ n, (jGet ([] : List (String × Json)) "cookTime").bind Json.asInt = some n →
        r.cookTime = n) ∧
      ((jGet ([] : List (String × Json)) "cookTime").bind Json.asInt = none →
        r.cookTime = 30) ∧
      (∀ n, (jGet ([] : List (String × Json)) "prepTime").bind Json.asInt = some n →
        r.prepTime = n) ∧
      ((jGet ([] : List (String × Json)) "prepTime").bind Json.asInt = none →
        r.prepTime = 15) ∧
      (∀ n, (jGet ([] : List (String × Json)) "servings").bind Json.asInt = some n →
        r.servings = n) ∧
      ((jGet ([] : List (String × Json)) "servings").bind Json.asInt = none →
        r.servings = 4) :=
  c6_scalar_defaults parseFix (mkEnvelope emptyObjectText) [] (.obj []) []
    (by rfl) (by rfl)

/-! ## Claim C7 -/

/-- C7: every entry of the payload's ingredients array with no (or a
non-numeric) `quantity` field maps to an Ingredient with
`quantity = none`, and the mapping completes without raising: the parser
still returns `.ok`. -/
theorem c7_quantity_null (parse : String → Option Json)
    (env : List (String × Json)) (ingredients : List String) (v : Json)
    (fields : List (String × Json))
    (ingredientsData : List (List (String × Json)))
    (h1 : parse (extractTextFromResponse env) = some v)
    (h2 : v.asObject = some fields)
    (h3 : (jGet fields "ingredients").bind Json.asObjectArray
        = some ingredientsData) :
    ∃ r, parseRecipeResponse parse env ingredients = .ok r ∧
      r.ingredients.length = ingredientsData.length ∧
      ∀ i (hi : i < ingredientsData.length) (hr : i < r.ingredients.length),
        (jGet (ingredientsData[i]) "quantity").bind Json.asNumber = none →
        (r.ingredients[i]).quantity = none := by
  refine ⟨recipeFromData fields, parseRecipeResponse_ok h1 h2, ?_, ?_⟩
  · simp [recipeFromData, h3]
  · intro i hi hr hq
    have hing : (recipeFromData fields).ingredients
        = ingredientsData.map mapIngredient := by
      simp [recipeFromData, h3]
    simp only [hing, List.getElem_map]
    simp [mapIngredient, hq]

/-- C7 witness: the `rice` entry with no quantity field maps to a null
quantity without an error. -/
theorem c7_witness :
    ∃ r, parseRecipeResponse parseFix (mkEnvelope ingredientsText) [] = .ok r ∧
      r.ingredients.length = [[("item", Json.str "rice")]].length ∧
      ∀ i (hi : i < [[("item", Json.str "rice")]].length)
        (hr : i < r.ingredients.length),
        (jGet ([[("item", Json.str "rice")]][i]) "quantity").bind Json.asNumber
            = none →
        (r.ingredients[i]).quantity = none :=
  c7_quantity_null parseFix (mkEnvelope ingredientsText) [] ingredientsJson
    [("ingredients", .arr [.obj [("item", .str "rice")]])]
    [[("item", Json.str "rice")]] (by rfl) (by rfl) (by rfl)

/-! ## Claim C8 -/

/-- C8 counterexample: a payload supplying `servings = 0` passes straight
through, so the produced Recipe violates the §3 invariant
`servings ≥ 1`. -/
theorem c8_counterexample :
    parseRecipeResponse parseFix (mkEnvelope servingsZeroText) []
      = .ok (recipeFromData [("servings", Json.num (JNum.int 0))]) ∧
    (recipeFromData [("servings", Json.num (JNum.int 0))]).servings = 0 ∧
    ¬ 1 ≤ (recipeFromData [("servings", Json.num (JNum.int 0))]).servings :=
  ⟨rfl, rfl, by decide⟩

/-- C8 (amended): `totalTime = prepTime + cookTime` holds for every
produced Recipe; `servings ≥ 1`, `cookTime ≥ 0` and `prepTime ≥ 0` hold
whenever the corresponding payload field is absent or non-integral (the
defaults 4 / 30 / 15 are in range), but a payload-supplied integer is
passed through unvalidated, so zero or negative payload integers violate
the §3 invariants. -/
theorem c8_invariants_amended (parse : String → Option Json)
    (env : List (String × Json)) (ingredients : List String) (v : Json)
    (fields : List (String × Json))
    (h1 : parse (extractTextFromResponse env) = some v)
    (h2 : v.asObject = some fields) :
    ∃ r, parseRecipeResponse parse env ingredients = .ok r ∧
      r.totalTime = r.prepTime + r.cookTime ∧
      ((jGet fields "servings").bind Json.asInt = none → 1 ≤ r.servings) ∧
      (∀ n, (jGet fields "servings").bind Json.asInt = some n → r.servings = n) ∧
      ((jGet fields "cookTime").bind Json.asInt = none → 0 ≤ r.cookTime) ∧
      (∀ n, (jGet fields "cookTime").bind Json.asInt = some n → r.cookTime = n) ∧
      ((jGet fields "prepTime").bind Json.asInt = none → 0 ≤ r.prepTime) ∧
      (∀ n, (jGet fields "prepTime").bind Json.asInt = some n → r.prepTime = n) := by
  refine ⟨recipeFromData fields, parseRecipeResponse_ok h1 h2, rfl,
    ?_, ?_, ?_, ?_, ?_, ?_⟩ <;>
  · first
    | (intro h; simp [recipeFromData, h])
    | (intro n h; simp [recipeFromData, h])

/-- C8 witness: on the empty payload all defaults are in range and the
total-time identity holds. -/
theorem c8_witness :
    ∃ r, parseRecipeResponse parseFix (mkEnvelope emptyObjectText) ["rice"]
        = .ok r ∧
      r.totalTime = r.prepTime + r.cookTime ∧
      ((jGet ([] : List (String × Json)) "servings").bind Json.asInt = none →
        1 ≤ r.servings) ∧
      (∀ n, (jGet ([] : List (String × Json)) "servings").bind Json.asInt = some n →
        r.servings = n) ∧
      ((jGet ([] : List (String × Json)) "cookTime").bind Json.asInt = none →
        0 ≤ r.cookTime) ∧
      (∀ n, (jGet ([] : List (String × Json)) "cookTime").bind Json.asInt = some n →
        r.cookTime = n) ∧
      ((jGet ([] : List (String × Json)) "prepTime").bind Json.asInt = none →
        0 ≤ r.prepTime) ∧
      (∀ n, (jGet ([] : List (String × Json)) "prepTime").bind Json.asInt = some n →
        r.prepTime = n) :=
  c8_invariants_amended parseFix (mkEnvelope emptyObjectText) ["rice"]
    (.obj []) [] (by rfl) (by rfl)

/-! ## Claim C10 -/

/-- C10: once the extracted text parses as a JSON object the recipe
mapping always succeeds; absent or mis-shaped `ingredients` /
`instructions` / `nutrition` keys merely leave the ingredient list
empty, the instruction list empty, resp. the nutrition absent; and any
error of `parseRecipeResponse` implies the text did not parse as a JSON
object. -/
theorem c10_mapping_total (parse : String → Option Json)
    (env : List (String × Json)) (ingredients : List String) :
    (∀ v fields, parse (extractTextFromResponse env) = some v →
      v.asObject = some fields →
      ∃ r, parseRecipeResponse parse env ingredients = .ok r ∧
        ((jGet fields "ingredients").bind Json.asObjectArray = none →
          r.ingredients = []) ∧
        ((jGet fields "instructions").bind Json.asObjectArray = none →
          r.instructions = []) ∧
        ((jGet fields "nutrition").bind Json.asObject = none →
          r.nutrition = none)) ∧
    (∀ e, parseRecipeResponse parse env ingredients = .error e →
      (parse (extractTextFromResponse env)).bind Json.asObject = none) := by
  constructor
  · intro v fields h1 h2
    refine ⟨recipeFromData fields, parseRecipeResponse_ok h1 h2, ?_, ?_, ?_⟩ <;>
    · intro h
      simp [recipeFromData, h]
  · intro e he
    cases hp : parse (extractTextFromResponse env) with
    | none => rfl
    | some v =>
      cases ho : v.asObject with
      | none => simp [ho]
      | some fields => simp [parseRecipeResponse, hp, ho] at he

/-- C10 witness: the empty payload object yields a Recipe with no
ingredients, no instructions and no nutrition, and no error. -/
theorem c10_witness :
    ∃ r, parseRecipeResponse parseFix (mkEnvelope emptyObjectText) [] = .ok r ∧
      ((jGet ([] : List (String × Json)) "ingredients").bind Json.asObjectArray
          = none → r.ingredients = []) ∧
      ((jGet ([] : List (String × Json)) "instructions").bind Json.asObjectArray
          = none → r.instructions = []) ∧
      ((jGet ([] : List (String × Json)) "nutrition").bind Json.asObject
          = none → r.nutrition = none) :=
  (c10_mapping_total parseFix (mkEnvelope emptyObjectText) []).1
    (.obj []) [] (by rfl) (by rfl)

/-! ## Claim C9 -/

set_option maxRecDepth 40000 in
/-- C9 counterexample: the request itself can smuggle the forbidden line
in: with cuisine `null` but an ingredient literally named
`"Cuisine: French"`, the prompt does contain the substring `"Cuisine:"`,
so the claim as stated (for every request with cuisine absent) fails. -/
theorem c9_counterexample :
    containsStr "Cuisine:"
      (buildRecipeGenerationPrompt ["Cuisine: French"] none Difficulty.hard 45)
      = true := by decide

set_option maxRecDepth 40000 in
/-- C9 (amended): for every generation request with a non-empty
ingredient list, cuisine absent, and no ingredient name itself
containing the substring `"Cuisine:"`, the prompt contains every
ingredient name and does not contain `"Cuisine:"`. -/
theorem c9_prompt_contents_amended (ingredients : List String)
    (difficulty : Difficulty) (t : Int)
    (hne : ingredients ≠ [])
    (hing : ∀ ing ∈ ingredients, containsStr "Cuisine:" ing = false) :
    (∀ ing ∈ ingredients,
      containsStr ing
        (buildRecipeGenerationPrompt ingredients none difficulty t) = true) ∧
    containsStr "Cuisine:"
      (buildRecipeGenerationPrompt ingredients none difficulty t) = false := by
  constructor
  · intro ing hmem
    unfold containsStr buildRecipeGenerationPrompt
    simp only [String.data_append, data_joinedStrings, List.append_assoc]
    apply containsSub_append_right
    apply containsSub_append_left
    exact containsSub_joinedChars_of_mem _ (List.mem_map_of_mem String.data hmem)
  · have hpat : ("Cuisine:" : String).data
        = 'C' :: ("uisine:" : String).data := rfl
    unfold containsStr buildRecipeGenerationPrompt
    simp only [String.data_append, data_joinedStrings, List.append_assoc, hpat]
    rw [containsSub_skip (by decide :
      ∀ c ∈ ("You are a professional chef. Generate a delicious recipe using these ingredients: " : String).data,
        c ≠ 'C')]
    have hraw : ∀ c ∈ (difficulty.rawValue).data, c ≠ 'C' := by
      cases difficulty <;> decide
    have hb : containsSub ('C' :: ("uisine:" : String).data)
        (("\n\nRequirements:\n" : String).data ++
          (("\n- Difficulty: " : String).data ++
            ((difficulty.rawValue).data ++
              (("\n- Target cooking time: around " : String).data ++
                (intChars t ++ recipeSchemaText.data))))) = false := by
      rw [containsSub_skip (by decide :
          ∀ c ∈ ("\n\nRequirements:\n" : String).data, c ≠ 'C'),
        containsSub_skip (by decide :
          ∀ c ∈ ("\n- Difficulty: " : String).data, c ≠ 'C'),
        containsSub_skip hraw,
        containsSub_skip (by decide :
          ∀ c ∈ ("\n- Target cooking time: around " : String).data, c ≠ 'C'),
        containsSub_skip (intChars_ne_C t)]
      decide
    have hl : ∀ x ∈ ingredients.map String.data,
        containsSub ('C' :: ("uisine:" : String).data) x = false := by
      intro x hx
      rcases List.mem_map.mp hx with ⟨ing, hmem, rfl⟩
      have h2 := hing ing hmem
      rw [containsStr, hpat] at h2
      exact h2
    exact containsSub_joinedChars_none (by decide) (by decide) (by decide) hb hl

set_option maxRecDepth 40000 in
/-- C9 witness: the amended theorem at the concrete scenario of the
claim — ingredients chicken breast / rice / broccoli, cuisine null,
difficulty hard, target 45 minutes: all three names appear and no
`"Cuisine:"` line does. -/
theorem c9_witness :
    (∀ ing ∈ ["chicken breast", "rice", "broccoli"],
      containsStr ing
        (buildRecipeGenerationPrompt ["chicken breast", "rice", "broccoli"]
          none Difficulty.hard 45) = true) ∧
    containsStr "Cuisine:"
      (buildRecipeGenerationPrompt ["chicken breast", "rice", "broccoli"]
        none Difficulty.hard 45) = false :=
  c9_prompt_contents_amended ["chicken breast", "rice", "broccoli"]
    Difficulty.hard 45 (by decide) (by decide)

end Culinara
